import Mathlib

/-!
Verification development for the IPASIR-2 repository (ipasir2/ipasir2).

The repository defines the IPASIR-2 C API for incremental SAT solvers
(header `ipasir2.h`, present in two draft revisions) together with thin
adapters: `ipasir2cms.cc` wraps CryptoMinisat behind the draft IPASIR-2
surface, `ipasir2ipasir.cc` wraps an IPASIR-1 solver behind IPASIR-2, and
`src/legacy/ipasir1ipasir2.cc` wraps an IPASIR-2 solver behind IPASIR-1.

The development below is a shallow embedding of those sources.  The wrapped
external solvers (CryptoMinisat's `SATSolver`, the IPASIR-1 library) are
opaque collaborators; their observable outcomes (the `lbool` returned by
`solve`, the model valuation, the final conflict clause, the variable count)
enter the embedded functions as explicit oracle arguments, while everything
the adapter code itself computes is translated statement by statement.
-/

/-- Error codes of the 2022 draft revision of `ipasir2.h` (the enum named
`ipasir2_errorcode` with `IPASIR_E_` constants).  This is the revision the
adapters `ipasir2cms.cc` and `ipasir2ipasir.cc` are written against. -/
inductive ipasir2_errorcode_2022 where
  | IPASIR_E_OK
  | IPASIR_E_UNKNOWN
  | IPASIR_E_UNSUPPORTED
  | IPASIR_E_OUT_OF_TIME
  | IPASIR_E_OUT_OF_MEM
  | IPASIR_E_INVALID_CONFIG
  | IPASIR_E_IO
  | IPASIR_E_INVALID_STATE
  | IPASIR_E_OPTION_UNKNOWN
  deriving DecidableEq, Repr

/-- Error codes of the converged revision of `ipasir2.h` (the enum named
`ipasir2_errorcode` with `IPASIR2_E_` constants). -/
inductive ipasir2_errorcode where
  | IPASIR2_E_OK
  | IPASIR2_E_UNKNOWN
  | IPASIR2_E_UNSUPPORTED
  | IPASIR2_E_UNSUPPORTED_ARGUMENT
  | IPASIR2_E_UNSUPPORTED_OPTION
  | IPASIR2_E_INVALID_STATE
  | IPASIR2_E_INVALID_ARGUMENT
  | IPASIR2_E_INVALID_OPTION_VALUE
  deriving DecidableEq, Repr

/-- States of the IPASIR-2 state machine, as declared by the enum
`ipasir2_state` in the converged revision of `ipasir2.h`. -/
inductive ipasir2_state where
  | IPASIR2_S_CONFIG
  | IPASIR2_S_INPUT
  | IPASIR2_S_SAT
  | IPASIR2_S_UNSAT
  | IPASIR2_S_SOLVING
  deriving DecidableEq, Repr

/-- Modelled from the spec: rank of a state in the documented partial order
`CONFIG < INPUT = SAT = UNSAT < SOLVING` (spec section 4.1 and the
`ipasir2_state` documentation in `ipasir2.h`).  The repository declares and
documents this order but contains no implementation of it. -/
def stateRank : ipasir2_state → Nat
  | .IPASIR2_S_CONFIG => 0
  | .IPASIR2_S_INPUT => 1
  | .IPASIR2_S_SAT => 1
  | .IPASIR2_S_UNSAT => 1
  | .IPASIR2_S_SOLVING => 2

/-- Operations gated by the legality table of spec section 4.1. -/
inductive ipasir2_op where
  | op_init
  | op_release
  | op_add
  | op_solve
  | op_val
  | op_failed
  | op_options
  | op_set_cb
  deriving DecidableEq, Repr

/-- Modelled from the spec: the legality table of spec section 4.1 (which
operation is legal in which state).  The repository documents this table in
`ipasir2.h` but contains no implementation of it; the adapters perform no
state tracking at all. -/
def specLegal : ipasir2_op → ipasir2_state → Bool
  | .op_init, _ => true
  | .op_release, st => decide (stateRank st < 2)
  | .op_add, st => decide (stateRank st ≤ 2)
  | .op_solve, st => decide (stateRank st < 2)
  | .op_val, st => match st with | .IPASIR2_S_SAT => true | _ => false
  | .op_failed, st => match st with | .IPASIR2_S_UNSAT => true | _ => false
  | .op_options, st => decide (stateRank st ≤ 2)
  | .op_set_cb, st => decide (stateRank st ≤ 2)

/-- Modelled from the spec: the exit state of `solve` as a function of the
result code, per spec section 4.1 ("exits to INPUT (result code 0),
SAT (result code 10), or UNSAT (result code 20)") and the `ipasir2_solve`
documentation in `ipasir2.h`. -/
def solveExitState (result : Int) : Option ipasir2_state :=
  if result = 0 then some .IPASIR2_S_INPUT
  else if result = 10 then some .IPASIR2_S_SAT
  else if result = 20 then some .IPASIR2_S_UNSAT
  else none

/-- CryptoMinisat truth values (`lbool`): `l_True`, `l_False`, `l_Undef`. -/
inductive Lbool where
  | l_True
  | l_False
  | l_Undef
  deriving DecidableEq, Repr

/-- CryptoMinisat literal `Lit(var, inverted)`; `toInt` returns the packed
encoding `2 * var + inverted`. -/
structure Lit where
  var : Nat
  inverted : Bool
  deriving DecidableEq, Repr

/-- `Lit::toInt()`: the packed integer encoding of a CryptoMinisat literal. -/
def Lit.toInt (l : Lit) : Nat :=
  2 * l.var + (if l.inverted then 1 else 0)

/-- `operator~` on CryptoMinisat literals: flip the inversion bit. -/
def Lit.neg (l : Lit) : Lit :=
  { var := l.var, inverted := !l.inverted }

/-- `Lit(std::abs(lit)-1, lit < 0)`: the conversion from a DIMACS literal to a
CryptoMinisat literal used throughout `ipasir2cms.cc`. -/
def litFromDimacs (lit : Int) : Lit :=
  { var := lit.natAbs - 1, inverted := decide (lit < 0) }

/-- The `MySolver` struct of `ipasir2cms.cc`, without the opaque external
`SATSolver*` member (whose observable outcomes enter the operations below as
oracle arguments).  `conflict_cl_map` is the `vector<char>` of conflict
markers; entries are the stored char values. -/
structure MySolver where
  clause : List Lit
  assumptions : List Lit
  last_conflict : List Lit
  conflict_cl_map : List Nat
  deriving DecidableEq, Repr

/-- `ipasir2_init` of `ipasir2cms.cc`: `*result = new MySolver;` — all vector
members are default-initialized empty — then `return IPASIR_E_OK;`. -/
def cms_init : ipasir2_errorcode_2022 × MySolver :=
  (.IPASIR_E_OK,
   { clause := [], assumptions := [], last_conflict := [], conflict_cl_map := [] })

/-- The freshly allocated `MySolver` produced by `ipasir2_init`. -/
def initMySolver : MySolver := cms_init.2

/-- `ipasir2_release` of `ipasir2cms.cc`: `delete s; return IPASIR_E_OK;`.
Deallocation has no observable effect in the embedding; the function returns
`IPASIR_E_OK` unconditionally, with no state consulted. -/
def cms_release (s : MySolver) : ipasir2_errorcode_2022 := .IPASIR_E_OK

/-- `ipasir2_val` of `ipasir2cms.cc`.  The external lookup
`s->solver->get_model()[cmVar]` is the oracle valuation `m`.  The body
consults no solver state and returns `IPASIR_E_OK` on every call. -/
def cms_val (m : Nat → Lbool) (lit : Int) : ipasir2_errorcode_2022 × Int :=
  let ipasirVar : Nat := lit.natAbs
  let cmVar : Nat := ipasirVar - 1
  match m cmVar with
  | .l_Undef => (.IPASIR_E_OK, 0)
  | .l_False => (.IPASIR_E_OK, -(ipasirVar : Int))
  | .l_True => (.IPASIR_E_OK, (ipasirVar : Int))

/-- `std::vector::resize(n, fill)`: truncate to `n` elements if `n` is at most
the current size, otherwise append copies of `fill` up to size `n`. -/
def vecResize (v : List Nat) (n : Nat) (fill : Nat) : List Nat :=
  if n ≤ v.length then v.take n else v ++ List.replicate (n - v.length) fill

/-- The loop `for(auto x: lits) map[x.toInt()] = c;` over `conflict_cl_map`
(`List.set` leaves the vector unchanged on an out-of-range index; the C++
`operator[]` write would be undefined there, but `ipasir2_solve` only issues
these writes at indices below the vector's size). -/
def markConflict (map : List Nat) (lits : List Lit) (c : Nat) : List Nat :=
  lits.foldl (fun acc x => acc.set x.toInt c) map

/-- `ipasir2_solve` of `ipasir2cms.cc`.  The external call
`s->solver->solve(&assumptions)` is the oracle `ret`; at its return the
external solver has `nVarsNow` variables (`s->solver->nVars()`) and final
conflict `conflictNow` (`s->solver->get_conflict()`).  The body clears the
markers of the previous `last_conflict`, clears `last_conflict` and
`assumptions`, and then branches on `ret`: `l_True` yields result 10;
`l_False` resizes `conflict_cl_map` to `nVars()*2`, stores and marks the new
conflict, and yields result 20; `l_Undef` yields result 0.  All three
branches return `IPASIR_E_OK` (the trailing `return IPASIR_E_UNKNOWN;` of
the C function is unreachable because `lbool` has exactly these three
values). -/
def cms_solve (s : MySolver) (ret : Lbool) (nVarsNow : Nat) (conflictNow : List Lit) :
    ipasir2_errorcode_2022 × Int × MySolver :=
  let map0 := markConflict s.conflict_cl_map s.last_conflict 0
  let s0 : MySolver :=
    { s with conflict_cl_map := map0, last_conflict := [], assumptions := [] }
  match ret with
  | .l_True => (.IPASIR_E_OK, 10, s0)
  | .l_False =>
      let map1 := vecResize s0.conflict_cl_map (nVarsNow * 2) 0
      let map2 := markConflict map1 conflictNow 1
      (.IPASIR_E_OK, 20,
       { s0 with conflict_cl_map := map2, last_conflict := conflictNow })
  | .l_Undef => (.IPASIR_E_OK, 0, s0)

/-- The index into `conflict_cl_map` computed by `ipasir2_failed` of
`ipasir2cms.cc`: `(~Lit(std::abs(lit)-1, lit < 0)).toInt()`. -/
def cms_failed_index (lit : Int) : Nat :=
  ((litFromDimacs lit).neg).toInt

/-- `ipasir2_failed` of `ipasir2cms.cc`: reads
`s->conflict_cl_map[(~tofind).toInt()]` and returns `IPASIR_E_OK`.  The read
is modelled with `getD`; the C++ `operator[]` read is undefined whenever
`cms_failed_index lit` is not below the vector's size. -/
def cms_failed (s : MySolver) (lit : Int) : ipasir2_errorcode_2022 × Nat :=
  (.IPASIR_E_OK, s.conflict_cl_map.getD (cms_failed_index lit) 0)

/-- `ipasir2_release` of `ipasir2ipasir.cc` (lines 126-129): forwards to the
opaque external `ipasir_release(solver)` and returns `IPASIR_E_OK`
unconditionally; no state is consulted. -/
def ipasir2ipasir_release {α : Type} (solver : α) : ipasir2_errorcode_2022 :=
  .IPASIR_E_OK

/-- `ipasir2_add` of `ipasir2ipasir.cc` (lines 146-149): forwards to the
opaque external `ipasir_add(solver, lit_or_zero)` and returns `IPASIR_E_OK`
unconditionally; no state is consulted. -/
def ipasir2ipasir_add {α : Type} (solver : α) (lit_or_zero : Int) :
    ipasir2_errorcode_2022 :=
  .IPASIR_E_OK

/-- Option value types of the 2022 draft header (`ipasir2_option_type`). -/
inductive ipasir2_option_type where
  | ENUM
  | INT
  | FLOAT
  deriving DecidableEq, Repr

/-- The `ipasir2_option` struct of the 2022 draft header: identifier, type,
minimum and maximum.  The adapter initializes several `FLOAT` options with
fractional bounds, kept here exactly as written as rationals (the C struct
declares the two bound fields as `int`, a further latent defect of the
draft). -/
structure ipasir2_option_2022 where
  name : String
  type : ipasir2_option_type
  minimum : Rat
  maximum : Rat
  deriving DecidableEq, Repr

/-- The 22 options the array built by `ipasir2_options` of `ipasir2cms.cc`
exposes (entries 0 to 21 of `solver_options`, in order). -/
def cms_solver_options : List ipasir2_option_2022 :=
  [ { name := "branch_strategy_setup", type := .INT, minimum := 0, maximum := 1 },
    { name := "varElimRatioPerIter", type := .FLOAT, minimum := 0.1, maximum := 1 },
    { name := "restartType", type := .INT, minimum := 0, maximum := 4 },
    { name := "polarity_mode", type := .INT, minimum := 0, maximum := 7 },
    { name := "inc_max_temp_lev2_red_cls", type := .FLOAT, minimum := 1.0, maximum := 1.04 },
    { name := "clause_clean_glue", type := .FLOAT, minimum := 0, maximum := 0.5 },
    { name := "clause_clean_activity", type := .FLOAT, minimum := 0, maximum := 0.5 },
    { name := "glue_put_lev0_if_below_or_eq", type := .INT, minimum := 0, maximum := 4 },
    { name := "glue_put_lev1_if_below_or_eq", type := .INT, minimum := 0, maximum := 6 },
    { name := "every_lev1_reduce", type := .INT, minimum := 1, maximum := 10000 },
    { name := "every_lev2_reduce", type := .INT, minimum := 1, maximum := 15000 },
    { name := "do_bva", type := .INT, minimum := 0, maximum := 1 },
    { name := "max_temp_lev2_learnt_clauses", type := .INT, minimum := 10000, maximum := 30000 },
    { name := "never_stop_search", type := .INT, minimum := 0, maximum := 1 },
    { name := "doMinimRedMoreMore", type := .INT, minimum := 0, maximum := 2 },
    { name := "max_num_lits_more_more_red_min", type := .INT, minimum := 0, maximum := 20 },
    { name := "max_glue_more_minim", type := .INT, minimum := 0, maximum := 4 },
    { name := "orig_global_timeout_multiplier", type := .INT, minimum := 0, maximum := 5 },
    { name := "num_conflicts_of_search_inc", type := .FLOAT, minimum := 1, maximum := 1.15 },
    { name := "more_red_minim_limit_binary", type := .INT, minimum := 0, maximum := 600 },
    { name := "restart_inc", type := .FLOAT, minimum := 1.1, maximum := 1.5 },
    { name := "restart_first", type := .INT, minimum := 100, maximum := 500 } ]

/-- The full zero-terminated array returned by `ipasir2_options` of
`ipasir2cms.cc`: the 22 entries followed by the terminating element
`solver_options[22] = { 0 }`, whose `name` is the null pointer (`none`). -/
def cms_options_array : List (Option ipasir2_option_2022) :=
  cms_solver_options.map some ++ [none]

/-- `ipasir2_set_option` of `ipasir2cms.cc` (lines 98-170): a chain of
`strcmp` tests on `name`, each recognized name returning `IPASIR_E_OK`
without ever reading `value`, and the final `else` returning
`IPASIR_E_OPTION_UNKNOWN`.  The `void const* value` argument is modelled as
the integer value being set; the body ignores it exactly as the C body
does. -/
def cms_set_option (name : String) (value : Int) : ipasir2_errorcode_2022 :=
  if name = "branch_strategy_setup" then .IPASIR_E_OK
  else if name = "varElimRatioPerIter" then .IPASIR_E_OK
  else if name = "restartType" then .IPASIR_E_OK
  else if name = "polarity_mode" then .IPASIR_E_OK
  else if name = "inc_max_temp_lev2_red_cls" then .IPASIR_E_OK
  else if name = "clause_clean_glue" then .IPASIR_E_OK
  else if name = "clause_clean_activity" then .IPASIR_E_OK
  else if name = "glue_put_lev0_if_below_or_eq" then .IPASIR_E_OK
  else if name = "glue_put_lev1_if_below_or_eq" then .IPASIR_E_OK
  else if name = "every_lev1_reduce" then .IPASIR_E_OK
  else if name = "every_lev2_reduce" then .IPASIR_E_OK
  else if name = "do_bva" then .IPASIR_E_OK
  else if name = "max_temp_lev2_learnt_clauses" then .IPASIR_E_OK
  else if name = "never_stop_search" then .IPASIR_E_OK
  else if name = "doMinimRedMoreMore" then .IPASIR_E_OK
  else if name = "max_num_lits_more_more_red_min" then .IPASIR_E_OK
  else if name = "max_glue_more_minim" then .IPASIR_E_OK
  else if name = "orig_global_timeout_multiplier" then .IPASIR_E_OK
  else if name = "num_conflicts_of_search_inc" then .IPASIR_E_OK
  else if name = "more_red_minim_limit_binary" then .IPASIR_E_OK
  else if name = "restart_inc" then .IPASIR_E_OK
  else if name = "restart_first" then .IPASIR_E_OK
  else .IPASIR_E_OPTION_UNKNOWN

/-- Outcome of the scanning loop of `ipasir2_get_option_handle`. -/
inductive scan_outcome where
  | found (entry : ipasir2_option_2022)
  | undefined_read
  deriving DecidableEq, Repr

/-- The loop `for (; options != nullptr; options++)` of
`ipasir2_get_option_handle` in the converged revision of `ipasir2.h` (lines
752-766).  The guard compares the element pointer, not the element, against
`nullptr`; incrementing a non-null pointer never yields `nullptr`, so the
guard never ends the loop.  Each iteration evaluates
`strcmp(options->name, name)`.  On a miss the scan therefore reaches the
terminating element, whose `name` is the null pointer: evaluating `strcmp`
there dereferences a null pointer and the walk continues past the array —
the `undefined_read` outcome, the only way the loop exits other than a
match. -/
def get_option_handle_loop (name : String) :
    List (Option ipasir2_option_2022) → scan_outcome
  | [] => .undefined_read
  | none :: _ => .undefined_read
  | some o :: rest =>
      if o.name = name then .found o else get_option_handle_loop name rest

/-- `ipasir2_get_option_handle` of the converged `ipasir2.h`: calls
`ipasir2_options` (outcome modelled by `err` and, when successful, the
zero-terminated array `entries`), then runs the scanning loop.  A `some`
result is a normal return (error code, and the entry stored into `*handle`
if any); `none` is the undefined-behavior outcome in which the loop ran past
the terminating element, so the function never returns
`IPASIR2_E_UNSUPPORTED_OPTION`. -/
def ipasir2_get_option_handle (err : ipasir2_errorcode)
    (entries : List (Option ipasir2_option_2022)) (name : String) :
    Option (ipasir2_errorcode × Option ipasir2_option_2022) :=
  if err = .IPASIR2_E_OK then
    match get_option_handle_loop name entries with
    | .found o => some (.IPASIR2_E_OK, some o)
    | .undefined_read => none
  else
    some (err, none)

/-- `ipasir2_signature` of `ipasir2cms.cc`.  The C parameter
`char const** result` is a pointer passed by value; the cell the caller's
pointer refers to is `callerCell`.  The body builds the signature string
`tmp2`, copies it into the static buffer `tmp`, and then executes
`result = tmp;` — an assignment to the local parameter variable, not a store
through it — so `callerCell` is returned unmodified while the function
returns `IPASIR_E_OK`.  The components of the result are the returned error
code, the caller's cell after the call, and the final value of the local
`result` variable. -/
def cms_signature (version : String) (callerCell : Option String) :
    ipasir2_errorcode_2022 × Option String × String :=
  let tmp2 := "cryptominisat-" ++ version
  let tmp := tmp2
  let result := tmp
  (.IPASIR_E_OK, callerCell, result)

/-- `ipasir2_set_terminate` of `ipasir2cms.cc` (lines 501-503): the body is
`return IPASIR_E_UNSUPPORTED;` — nothing is stored and the instance is
unchanged. -/
def cms_set_terminate {α β : Type} (s : MySolver) (data : α) (callback : β) :
    ipasir2_errorcode_2022 × MySolver :=
  (.IPASIR_E_UNSUPPORTED, s)

/-- `ipasir2_set_learn` of `ipasir2cms.cc` (lines 535-537): the body is
`return IPASIR_E_UNSUPPORTED;` — nothing is stored and the instance is
unchanged. -/
def cms_set_learn {α β : Type} (s : MySolver) (data : α) (callback : β) :
    ipasir2_errorcode_2022 × MySolver :=
  (.IPASIR_E_UNSUPPORTED, s)

/-- `ipasir2_set_import_redundant_clause` of `ipasir2cms.cc` (lines 187-190):
the body is `return IPASIR_E_UNSUPPORTED;` — nothing is stored and the
instance is unchanged. -/
def cms_set_import_redundant_clause {α β : Type} (s : MySolver)
    (callback : β) (state : α) : ipasir2_errorcode_2022 × MySolver :=
  (.IPASIR_E_UNSUPPORTED, s)

/-- `ipasir2_set_import_redundant_clause` of `ipasir2ipasir.cc` (lines
63-66): the body is `return IPASIR_E_UNSUPPORTED;` — the wrapped IPASIR-1
solver is never touched. -/
def ipasir2ipasir_set_import_redundant_clause {α β γ : Type} (solver : γ)
    (callback : β) (state : α) : ipasir2_errorcode_2022 × γ :=
  (.IPASIR_E_UNSUPPORTED, solver)

/-- The callback wiring of class `ipasir2_solver` in
`src/legacy/ipasir1ipasir2.cc` (the IPASIR-1 facade over an IPASIR-2
solver).  `α` models the opaque `void*` data pointer type and `β` the
IPASIR-1 learn-callback function-pointer type; a null pointer is `none`.
`learn_slot_registered` models whether `ipasir2_set_learn` has been handed
the (always non-null) trampoline lambda of `set_learn`. -/
structure ipasir2_solver (α β : Type) where
  m_learn_callback : Option β
  m_learn_callback_data : Option α
  learn_slot_registered : Bool
  deriving DecidableEq, Repr

/-- `ipasir2_solver::set_learn` (src/legacy/ipasir1ipasir2.cc lines 71-85):
stores the incoming function pointer and data verbatim (including the null
pointer), and then unconditionally registers its non-null trampoline lambda
with `ipasir2_set_learn` — it does so for a null `learn_fn` too, rather than
forwarding the null to disable the callback. -/
def ipasir2_solver.set_learn {α β : Type} (s : ipasir2_solver α β)
    (data : α) (learn_fn : Option β) : ipasir2_solver α β :=
  { m_learn_callback := learn_fn,
    m_learn_callback_data := some data,
    learn_slot_registered := true }

/-- The invocation the underlying IPASIR-2 solver performs on learning a
clause while solving: `none` when no callback is registered in its learn
slot (per `ipasir2.h`, a slot holding `nullptr` is disabled); otherwise the
registered trampoline runs (`some _`) and jumps to the stored
`m_learn_callback` — which is the null pointer (`some none`, a call through
a null function pointer) exactly when `set_learn` was last given NULL. -/
def ipasir2_solver.learn_event_target {α β : Type} (s : ipasir2_solver α β) :
    Option (Option β) :=
  if s.learn_slot_registered then some s.m_learn_callback else none

theorem markConflict_length (lits : List Lit) (map : List Nat) (c : Nat) :
    (markConflict map lits c).length = map.length := by
  induction lits generalizing map with
  | nil => rfl
  | cons x xs ih =>
      show (markConflict (map.set x.toInt c) xs c).length = map.length
      rw [ih, List.length_set]

theorem vecResize_length (v : List Nat) (n fill : Nat) :
    (vecResize v n fill).length = n := by
  unfold vecResize
  split
  · rw [List.length_take]; omega
  · rw [List.length_append, List.length_replicate]; omega

/-- Claim C1: the claim states that invoking an operation in a state where the
legality table forbids it returns `INVALID_STATE`, never `OK`, and leaves the
state unchanged.  The adapters refute this: they track no state at all, and
the cited entry points return `IPASIR_E_OK` unconditionally — `ipasir2_val`
of `ipasir2cms.cc` returns `IPASIR_E_OK` for every model and literal (so in
particular outside the SAT state, where the spec table marks `val` illegal),
and `ipasir2_release` / `ipasir2_add` of `ipasir2ipasir.cc` return
`IPASIR_E_OK` in every state. -/
theorem c1_illegal_state_never_reported (α : Type) :
    specLegal .op_val .IPASIR2_S_INPUT = false
    ∧ specLegal .op_val .IPASIR2_S_UNSAT = false
    ∧ specLegal .op_release .IPASIR2_S_SOLVING = false
    ∧ (∀ (m : Nat → Lbool) (lit : Int), (cms_val m lit).1 = .IPASIR_E_OK)
    ∧ (∀ s : MySolver, cms_release s = .IPASIR_E_OK)
    ∧ (∀ s : α, ipasir2ipasir_release s = .IPASIR_E_OK)
    ∧ (∀ (s : α) (lz : Int), ipasir2ipasir_add s lz = .IPASIR_E_OK) := by
  refine ⟨rfl, rfl, rfl, ?_, fun _ => rfl, fun _ => rfl, fun _ _ => rfl⟩
  intro m lit
  rcases h : m (lit.natAbs - 1) <;> simp [cms_val, h]

/-- Claim C2: a successful `solve` call from a state below SOLVING writes
exactly one of the results 0, 10, 20, and the post-state is INPUT for 0, SAT
for 10, UNSAT for 20.  `ipasir2_solve` of `ipasir2cms.cc` returns
`IPASIR_E_OK` with result 10, 20 or 0 according to the external solver's
`l_True` / `l_False` / `l_Undef` outcome; the post-state correspondence is
the spec-modelled `solveExitState` (no state is represented in the
adapters). -/
theorem c2_solve_result_codes (st : ipasir2_state)
    (h : stateRank st < stateRank .IPASIR2_S_SOLVING)
    (s : MySolver) (ret : Lbool) (nv : Nat) (confl : List Lit) :
    (cms_solve s ret nv confl).1 = .IPASIR_E_OK
    ∧ (((cms_solve s ret nv confl).2.1 = 0
          ∧ solveExitState (cms_solve s ret nv confl).2.1 = some .IPASIR2_S_INPUT)
        ∨ ((cms_solve s ret nv confl).2.1 = 10
          ∧ solveExitState (cms_solve s ret nv confl).2.1 = some .IPASIR2_S_SAT)
        ∨ ((cms_solve s ret nv confl).2.1 = 20
          ∧ solveExitState (cms_solve s ret nv confl).2.1 = some .IPASIR2_S_UNSAT)) := by
  rcases ret with _ | _ | _ <;> simp [cms_solve, solveExitState]

/-- Witness for claim C2 at the concrete state INPUT and a satisfiable
outcome: the result is 10 and the exit state is SAT. -/
theorem c2_solve_result_codes_witness :
    stateRank .IPASIR2_S_INPUT < stateRank .IPASIR2_S_SOLVING
    ∧ ((cms_solve initMySolver .l_True 0 []).1 = .IPASIR_E_OK
      ∧ (((cms_solve initMySolver .l_True 0 []).2.1 = 0
            ∧ solveExitState (cms_solve initMySolver .l_True 0 []).2.1
                = some .IPASIR2_S_INPUT)
          ∨ ((cms_solve initMySolver .l_True 0 []).2.1 = 10
            ∧ solveExitState (cms_solve initMySolver .l_True 0 []).2.1
                = some .IPASIR2_S_SAT)
          ∨ ((cms_solve initMySolver .l_True 0 []).2.1 = 20
            ∧ solveExitState (cms_solve initMySolver .l_True 0 []).2.1
                = some .IPASIR2_S_UNSAT))) :=
  ⟨by decide, c2_solve_result_codes .IPASIR2_S_INPUT (by decide) initMySolver .l_True 0 []⟩

/-- Claim C3: the claim states that `set_option` rejects out-of-range values
with `INVALID_OPTION_VALUE` and accepts the boundary values with OK.
`ipasir2_set_option` of `ipasir2cms.cc` refutes the rejection half: the
catalogue declares `branch_strategy_setup` with range [0, 1], yet the setter
never reads the value and returns `IPASIR_E_OK` for every value of a
recognized name — including 5, which lies outside the declared range (the
acceptance at the boundaries 0 and 1 is the same unconditional OK). -/
theorem c3_set_option_value_range_ignored :
    ((cms_solver_options[0]?).map (fun o => (o.name, o.minimum, o.maximum))
        = some ("branch_strategy_setup", (0 : Rat), (1 : Rat)))
    ∧ (∀ v : Int, cms_set_option "branch_strategy_setup" v = .IPASIR_E_OK) :=
  ⟨by decide, fun _ => rfl⟩

/-- Claim C4: the claim states that `set_option` validates, in order, the
option name (else `UNSUPPORTED_OPTION`), the value range (else
`INVALID_OPTION_VALUE`) and the state ceiling (else `INVALID_STATE`).
`ipasir2_set_option` of `ipasir2cms.cc` implements only the name check: an
unknown name yields `IPASIR_E_OPTION_UNKNOWN` (the draft-enum spelling of
the unsupported-option code) for every value, while `restartType`, declared
with maximum 4, is accepted with `IPASIR_E_OK` at value 99 — the range and
state checks do not exist. -/
theorem c4_set_option_checks_only_the_name :
    (∀ v : Int, cms_set_option "ipasir.limits.conflicts" v = .IPASIR_E_OPTION_UNKNOWN)
    ∧ ((cms_solver_options[2]?).map (fun o => (o.name, o.maximum))
        = some ("restartType", (4 : Rat)))
    ∧ cms_set_option "restartType" 99 = .IPASIR_E_OK :=
  ⟨fun _ => rfl, by decide, rfl⟩

/-- Claim C5: a registration call for a callback kind the solver does not
implement returns `UNSUPPORTED` and the solver thereafter behaves exactly as
if the callback were never set.  The CryptoMinisat adapter implements no
callback kind: `ipasir2_set_terminate`, `ipasir2_set_learn` and
`ipasir2_set_import_redundant_clause` (also the one of `ipasir2ipasir.cc`)
return `IPASIR_E_UNSUPPORTED` and store nothing, so the instance is returned
unchanged and a subsequent `ipasir2_solve` is literally the same computation
as without the registration attempt. -/
theorem c5_unsupported_callback_registration_has_no_effect (α β γ : Type) :
    (∀ (s : MySolver) (d : α) (cb : β),
        cms_set_terminate s d cb = (.IPASIR_E_UNSUPPORTED, s))
    ∧ (∀ (s : MySolver) (d : α) (cb : β),
        cms_set_learn s d cb = (.IPASIR_E_UNSUPPORTED, s))
    ∧ (∀ (s : MySolver) (cb : β) (st : α),
        cms_set_import_redundant_clause s cb st = (.IPASIR_E_UNSUPPORTED, s))
    ∧ (∀ (s : γ) (cb : β) (st : α),
        ipasir2ipasir_set_import_redundant_clause s cb st = (.IPASIR_E_UNSUPPORTED, s))
    ∧ (∀ (s : MySolver) (d : α) (cb : β) (ret : Lbool) (nv : Nat) (confl : List Lit),
        cms_solve (cms_set_terminate s d cb).2 ret nv confl = cms_solve s ret nv confl) :=
  ⟨fun _ _ _ => rfl, fun _ _ _ => rfl, fun _ _ _ => rfl, fun _ _ _ => rfl,
   fun _ _ _ _ _ _ => rfl⟩

/-- Claim C6: the claim states that the last registration wins and that a
null callback clears the slot, so that after `set_learn` with NULL no learn
callback of any kind fires.  `ipasir2_solver::set_learn` of
`src/legacy/ipasir1ipasir2.cc` satisfies last-wins (after two registrations
the learn event jumps to the second function), but refutes null-clears: a
registration with the null pointer still registers the non-null trampoline
with `ipasir2_set_learn`, so the underlying solver still fires the learn
event — whose jump target is then the stored null function pointer — rather
than the slot being disabled. -/
theorem c6_null_learn_callback_does_not_disable (α β : Type) :
    (∀ (s : ipasir2_solver α β) (d d2 : α) (f1 f2 : β),
        ((s.set_learn d (some f1)).set_learn d2 (some f2)).learn_event_target
          = some (some f2))
    ∧ (∀ (s : ipasir2_solver α β) (d : α),
        (s.set_learn d none).learn_event_target = some none)
    ∧ (∀ (s : ipasir2_solver α β) (d : α),
        (s.set_learn d none).learn_event_target ≠ none) :=
  ⟨fun _ _ _ _ _ => rfl, fun _ _ => rfl, fun _ _ h => Option.noConfusion h⟩

/-- Claim C7: after a SAT answer, `val(lit)` returns `lit`, `-lit` or 0, and
it returns 0 exactly when the found model leaves the literal's variable
unassigned (truly free) — so for a literal with an assigned variable, the
value reported for it (and its negation) is non-zero.  This is the behavior
of `ipasir2_val` of `ipasir2cms.cc` over the external model valuation. -/
theorem c7_val_roundtrip (m : Nat → Lbool) (lit : Int) (hlit : lit ≠ 0) :
    ((cms_val m lit).2 = lit ∨ (cms_val m lit).2 = -lit ∨ (cms_val m lit).2 = 0)
    ∧ ((cms_val m lit).2 = 0 ↔ m (lit.natAbs - 1) = .l_Undef) := by
  rcases h : m (lit.natAbs - 1) <;> simp [cms_val, h, -Int.natCast_natAbs] <;> omega

/-- Witness for claim C7 at literal 3 under a model that assigns every
variable true: `val` returns 3 and the freeness equivalence holds. -/
theorem c7_val_roundtrip_witness :
    (3 : Int) ≠ 0
    ∧ (((cms_val (fun _ => .l_True) 3).2 = 3 ∨ (cms_val (fun _ => .l_True) 3).2 = -3
          ∨ (cms_val (fun _ => .l_True) 3).2 = 0)
        ∧ ((cms_val (fun _ => .l_True) 3).2 = 0
            ↔ (fun _ => Lbool.l_True) ((3 : Int).natAbs - 1) = .l_Undef)) :=
  ⟨by decide, c7_val_roundtrip (fun _ => .l_True) 3 (by decide)⟩

/-- Claim C8: the claim states that a successful `signature` call sets the
caller's output parameter to the library name and version string.
`ipasir2_signature` of `ipasir2cms.cc` refutes this: its final statement
`result = tmp;` assigns the local parameter variable, not the cell it points
to, so the caller's pointer is returned exactly as it came in (here: still
null) while the function reports `IPASIR_E_OK`. -/
theorem c8_signature_never_writes_output :
    (∀ (version : String) (cell : Option String),
        (cms_signature version cell).1 = .IPASIR_E_OK
        ∧ (cms_signature version cell).2.1 = cell)
    ∧ (cms_signature "5.11.0" none).2.1 = none
    ∧ (cms_signature "5.11.0" none).2.1 ≠ some "cryptominisat-5.11.0" :=
  ⟨fun _ _ => ⟨rfl, rfl⟩, rfl, fun h => Option.noConfusion h⟩

/-- Claim C9: the claim states that `ipasir2_get_option_handle` scans at most
the array's entries, returning OK at the first match and
`UNSUPPORTED_OPTION` when no entry matches, without reading past the
terminator.  The code (converged `ipasir2.h`) satisfies the match half —
shown here for `restart_first` on the CryptoMinisat array — but refutes the
miss half: its guard `options != nullptr` never ends the loop, so for a name
carried by no entry (such as `ipasir.limits.decisions`, the very name the
repository's test client requests) the scan reaches the terminating element
and dereferences its null name instead of ever returning
`IPASIR2_E_UNSUPPORTED_OPTION`. -/
theorem c9_get_option_handle_runs_past_terminator :
    (∀ o ∈ cms_solver_options, o.name ≠ "ipasir.limits.decisions")
    ∧ ipasir2_get_option_handle .IPASIR2_E_OK cms_options_array
        "ipasir.limits.decisions" = none
    ∧ ipasir2_get_option_handle .IPASIR2_E_OK cms_options_array
        "ipasir.limits.decisions" ≠ some (.IPASIR2_E_UNSUPPORTED_OPTION, none)
    ∧ ipasir2_get_option_handle .IPASIR2_E_OK cms_options_array "restart_first"
        = some (.IPASIR2_E_OK,
            some { name := "restart_first", type := .INT, minimum := 100, maximum := 500 }) := by
  refine ⟨by decide, by decide, ?_, by decide⟩
  intro h
  rw [(by decide : ipasir2_get_option_handle .IPASIR2_E_OK cms_options_array
        "ipasir.limits.decisions" = none)] at h
  exact Option.noConfusion h

/-- Counterexample to claim C10 as stated: before any UNSAT result the
conflict map of a fresh instance is empty, so the index `ipasir2_failed`
computes for literal 1 (namely 1) is not below the map's size — the lookup
is out of bounds. -/
theorem c10_out_of_bounds_before_unsat :
    ¬ (cms_failed_index 1 < initMySolver.conflict_cl_map.length) := by decide

/-- Claim C10 (amended): after a `solve` call that returned UNSAT — which
resizes `conflict_cl_map` to `nVars * 2` — the index `ipasir2_failed`
computes for any non-zero literal whose variable index is at most the
solver's variable count is strictly below the map's size, so that lookup is
in bounds.  (As stated the claim also covered calls before any UNSAT result
and literals of fresh variables; those lookups are out of bounds.) -/
theorem c10_failed_index_in_bounds_after_unsat
    (s : MySolver) (nVarsNow : Nat) (conflictNow : List Lit) (lit : Int)
    (h0 : lit ≠ 0) (hv : lit.natAbs ≤ nVarsNow) :
    cms_failed_index lit <
      ((cms_solve s .l_False nVarsNow conflictNow).2.2).conflict_cl_map.length := by
  have hlen :
      ((cms_solve s .l_False nVarsNow conflictNow).2.2).conflict_cl_map.length
        = nVarsNow * 2 := by
    show (markConflict (vecResize _ (nVarsNow * 2) 0) conflictNow 1).length = nVarsNow * 2
    rw [markConflict_length, vecResize_length]
  rw [hlen]
  unfold cms_failed_index litFromDimacs Lit.neg Lit.toInt
  simp only
  split <;> omega

/-- Witness for the amended claim C10: with one variable, after an UNSAT
solve the index for literal 1 is below the resized map's size. -/
theorem c10_failed_index_in_bounds_after_unsat_witness :
    (1 : Int) ≠ 0 ∧ (1 : Int).natAbs ≤ 1
    ∧ cms_failed_index 1 <
        ((cms_solve initMySolver .l_False 1 []).2.2).conflict_cl_map.length :=
  ⟨by decide, by decide,
   c10_failed_index_in_bounds_after_unsat initMySolver 1 [] 1 (by decide) (by decide)⟩
